import Mathlib

/-
Verification of the map-testing workflow and server-status checks of the
ddnet-discordbot repository. The definitions below are shallow embeddings of
`cogs/map_testing.py` and `cogs/teeworlds.py`; message text, channel names and
file names are modelled as `List Char`, matching Python per-character string
indexing and slicing.
-/

/-! ### Naming and parsing utilities (`cogs/map_testing.py`) -/

/-- Server-type table `SERVER_TYPES` from `cogs/map_testing.py`: map server type
to the glyph used as the channel-name prefix. -/
def SERVER_TYPES : List (List Char × Char) :=
  [("Novice".toList, '👶'),
   ("Moderate".toList, '🌸'),
   ("Brutal".toList, '💪'),
   ("Insane".toList, '💀'),
   ("Dummy".toList, '♿'),
   ("Oldschool".toList, '👴'),
   ("Solo".toList, '⚡'),
   ("Race".toList, '🏁')]

/-- Membership test `s in SERVER_TYPES` (Python dict key membership). -/
def isServerType (s : List Char) : Bool :=
  SERVER_TYPES.any (fun p => decide (p.1 = s))

/-- Python `str.capitalize`: first character upper-cased, the rest lower-cased
(ASCII, which covers every server-type key). -/
def pyCapitalize (l : List Char) : List Char :=
  match l with
  | [] => []
  | c :: t => Char.toUpper c :: t.map Char.toLower

/-- Matcher for the anchor `$` of the caption pattern: Python `$` (without
MULTILINE) matches at the end of the string or just before one final newline. -/
def matchDollar (l : List Char) : Bool :=
  decide (l = []) || decide (l = ['\n'])

/-- Greedy backtracking matcher for the regex fragment `\x20+` (one or more
literal spaces): consume as many spaces as possible first, giving spaces back
one at a time when the continuation `k` fails. -/
def spacesPlus {α : Type} (k : List Char → Option α) : List Char → Option α
  | ' ' :: t =>
    match spacesPlus k t with
    | some a => some a
    | none => k t
  | _ => none

/-- Greedy backtracking matcher for the capture group `(.+)`: one or more
characters other than a newline, longest capture tried first; the continuation
`k` consumes the remainder. Returns the captured group and the continuation
result. -/
def dotPlus {α : Type} (k : List Char → Option α) : List Char → Option (List Char × α)
  | [] => none
  | c :: t =>
    if c = '\n' then none
    else
      match dotPlus k t with
      | some (g, a) => some (c :: g, a)
      | none =>
        match k t with
        | some a => some ([c], a)
        | none => none

/-- Backtracking matcher for the caption regex of `format_map_details`,
`^\"(.+)\" +by +(.+) +\[(.+)\]$` (as used with `re.search`; `^` anchors the
match at the start of the string). Returns the three captured groups: display
name, raw mapper text, raw server text. -/
def format_match (l : List Char) : Option (List Char × List Char × List Char) :=
  match l with
  | '"' :: l1 =>
    let res := dotPlus (fun r =>
      match r with
      | '"' :: r2 =>
        spacesPlus (fun r3 =>
          match r3 with
          | 'b' :: 'y' :: r4 =>
            spacesPlus (fun r5 =>
              dotPlus (fun r6 =>
                spacesPlus (fun r7 =>
                  match r7 with
                  | '[' :: r8 =>
                    dotPlus (fun r9 =>
                      match r9 with
                      | ']' :: r10 => if matchDollar r10 then some () else none
                      | _ => none) r8
                  | _ => none) r6) r5) r4
          | _ => none) r2
      | _ => none) l1
    match res with
    | some (g1, (g2, (g3, ()))) => some (g1, g2, g3)
    | none => none
  | _ => none

/-- Splitter for the mapper list, `re.split` on the alternation
`, | , | & | and ` — at each position the four delimiters are tried in this
order, scanning left to right. `acc` holds the current token reversed. -/
def splitMappersAux : List Char → List Char → List (List Char)
  | acc, ',' :: ' ' :: t => acc.reverse :: splitMappersAux [] t
  | acc, ' ' :: ',' :: ' ' :: t => acc.reverse :: splitMappersAux [] t
  | acc, ' ' :: '&' :: ' ' :: t => acc.reverse :: splitMappersAux [] t
  | acc, ' ' :: 'a' :: 'n' :: 'd' :: ' ' :: t => acc.reverse :: splitMappersAux [] t
  | acc, c :: t => splitMappersAux (c :: acc) t
  | acc, [] => [acc.reverse]

/-- Mapper splitting as performed in `format_map_details`. -/
def splitMappers (l : List Char) : List (List Char) :=
  splitMappersAux [] l

/-- `MapTesting.format_map_details`: parse the submission caption
`"<name>" by <mapper> [<server>]`; the server token is capitalized when the
capitalized form is a server-type key, otherwise passed through unmodified. -/
def format_map_details (content : List Char) :
    Option (List Char × List (List Char) × List Char) :=
  match format_match content with
  | none => none
  | some (name, mapperRaw, serverRaw) =>
    let mapper := splitMappers mapperRaw
    let server :=
      if isServerType (pyCapitalize serverRaw) then pyCapitalize serverRaw else serverRaw
    some (name, mapper, server)

/-! ### Channel registry and submission validator -/

/-- The two channel groups: the Map Testing category `mt_cat` and the Evaluated
Maps category `em_cat`, each holding the display names of its text channels in
listing order. -/
structure Registry where
  mt : List (List Char)
  em : List (List Char)
deriving DecidableEq

/-- `MapTesting.get_map_channel`: lower-case the argument, then find the first
channel of the Map Testing category whose name with one leading character
stripped equals it, else the first channel of the Evaluated Maps category with
two leading characters stripped. -/
def get_map_channel (r : Registry) (name : List Char) : Option (List Char) :=
  let n := name.map Char.toLower
  match r.mt.find? (fun c => decide (n = c.drop 1)) with
  | some c => some c
  | none => r.em.find? (fun c => decide (n = c.drop 2))

/-- Python slice `filename[:-4]`: the attachment filename with its final four
characters (the `.map` suffix) removed. -/
def stem4 (filename : List Char) : List Char :=
  filename.take (filename.length - 4)

/-- Modelled from the spec: `sanitize` lives in `utils/misc.py`, which is not
among the sources here. Per the spec, `canonicalize` case-folds, strips
characters outside the allowed channel-name charset and truncates to a fixed
maximum length; the scenario mapping the caption name `"Kobra 3"` to the stem
`kobra_3` additionally fixes that blanks become underscores. -/
def sanitize (l : List Char) : List Char :=
  ((((l.map Char.toLower).map fun c => if c = ' ' then '_' else c).filter
    fun c => c.isLower || c.isDigit || decide (c = '_') || decide (c = '-')).take 100)

/-- The four validation failure reasons produced by
`MapTesting.validate_map_submission`, in the order of its `if`/`elif` chain;
the duplicate reason carries the existing channel the message references. -/
inductive ValidationError
  | malformedDetails
  | nameFilenameMismatch
  | invalidServerType
  | duplicateSubmission (chan : List Char)
deriving DecidableEq

/-- `MapTesting.validate_map_submission`: parse the caption, take the filename
stem, look the stem up in the registry, then return the first failing rule of
the `if`/`elif` chain (parse, name/filename match, server type, duplicate), or
`none` when the submission is valid. -/
def validate_map_submission (r : Registry) (content : List Char)
    (attachFilename : List Char) : Option ValidationError :=
  let details := format_map_details content
  let filename := stem4 attachFilename
  let duplicate_chan := get_map_channel r filename
  match details with
  | none => some ValidationError.malformedDetails
  | some (name, _mapper, server) =>
    if sanitize name ≠ filename then some ValidationError.nameFilenameMismatch
    else if ¬ isServerType server then some ValidationError.invalidServerType
    else
      match duplicate_chan with
      | some c => some (ValidationError.duplicateSubmission c)
      | none => none

/-! ### Map-channel lifecycle (`move_map_channel`, `ready`, `decline`) -/

/-- The two categories a map channel can live in. -/
inductive Cat
  | mt
  | em
deriving DecidableEq

/-- A map channel: display name and parent category. -/
structure Channel where
  name : List Char
  cat : Cat
deriving DecidableEq

/-- The three state glyphs checked by `move_map_channel`:
Ready `📆`, Released `🔥`, Declined `❌`. -/
def state_glyphs : List Char := ['📆', '🔥', '❌']

/-- The lifecycle states of a map channel. -/
inductive LifecycleState
  | testing
  | ready
  | declined
  | released
deriving DecidableEq

/-- `deriveState` of the Channel Registry: the lifecycle state encoded by the
leading glyph of the channel display name; a name starting with no known state
glyph means Testing. -/
def deriveState (c : Channel) : LifecycleState :=
  match c.name with
  | '📆' :: _ => LifecycleState.ready
  | '❌' :: _ => LifecycleState.declined
  | '🔥' :: _ => LifecycleState.released
  | _ => LifecycleState.testing

/-- `MapTesting.move_map_channel`: when the first character of the channel name
is a state glyph it is the previous glyph; if the previous glyph equals the
target the function returns without editing. Otherwise the channel is renamed
to the target glyph followed by the name with the previous glyph stripped, and
moved to the Evaluated Maps category. Result: the channel after the call plus
whether an edit was issued; `none` models the index error on an empty name. -/
def move_map_channel (c : Channel) (emoji : Char) : Option (Channel × Bool) :=
  match c.name with
  | [] => none
  | h :: t =>
    let prev_emoji : Option Char := if h ∈ state_glyphs then some h else none
    match prev_emoji with
    | some p =>
      if p = emoji then some (c, false)
      else some (⟨emoji :: t, Cat.em⟩, true)
    | none => some (⟨emoji :: h :: t, Cat.em⟩, true)

/-- The `ready` command: guarded by `cog_check` (map channel and staff issuer);
when the guard passes it calls `move_map_channel` with the Ready glyph. -/
def ready_cmd (isStaffIssuer : Bool) (c : Channel) : Option (Channel × Bool) :=
  if isStaffIssuer then move_map_channel c '📆' else some (c, false)

/-- The `decline` command: guarded by `cog_check`; when the guard passes it
calls `move_map_channel` with the Declined glyph. -/
def decline_cmd (isStaffIssuer : Bool) (c : Channel) : Option (Channel × Bool) :=
  if isStaffIssuer then move_map_channel c '❌' else some (c, false)

/-- Modelled from the spec: the `reset` staff command of the merged state
machine is not present in this source file; per the transition table it strips
the state glyph from the channel name and moves the channel back to the
Testing group. -/
def reset_map_channel (c : Channel) : Channel :=
  match c.name with
  | [] => ⟨[], Cat.mt⟩
  | g :: t => if g ∈ state_glyphs then ⟨t, Cat.mt⟩ else ⟨g :: t, Cat.mt⟩

/-- Modelled from the spec: the `reset` command applies `reset_map_channel`
only when the issuer is staff in that channel. -/
def reset_cmd (isStaffIssuer : Bool) (c : Channel) : Channel :=
  if isStaffIssuer then reset_map_channel c else c

/-! ### Permission synchronizer (`handle_giving_perms` / `handle_removing_perms`) -/

/-- Guild member identifier. -/
abbrev UserId := Nat

/-- The permission-relevant guild state: which users hold the `testing` role,
and for each channel name the per-user `read_messages` permission-overwrite
value (`none` means no explicit overwrite or an unset `read_messages`). -/
structure PermState where
  roles : UserId → Bool
  ow : List Char → UserId → Option Bool

/-- The channel on which a reaction event fired, as the two handlers
distinguish it: the `📌info` channel, the `📬submit-maps` channel, or any
other channel. -/
inductive EvChan
  | tinfo
  | submit
  | other
deriving DecidableEq

/-- `MapTesting.handle_giving_perms`, fired on every raw reaction add with no
filter on the acting user: on a `✅` reaction in the info channel, grant the
`testing` role when the user lacks it; on a `✅` reaction in the submit
channel, look the referenced message attachment stem up in the registry and
set an explicit `read_messages=True` overwrite when `overwrites_for(user)` is
not already truthy; when no channel is found, remove the reaction instead
(the returned flag). -/
def handle_giving_perms (r : Registry) (st : PermState) (emoji : Char)
    (chan : EvChan) (user : UserId) (msgFilename : List Char) : PermState × Bool :=
  if emoji ≠ '✅' then (st, false)
  else
    let st1 :=
      if chan = EvChan.tinfo ∧ st.roles user = false then
        { st with roles := fun v => if v = user then true else st.roles v }
      else st
    if chan = EvChan.submit then
      match get_map_channel r (stem4 msgFilename) with
      | some mc =>
        if (st1.ow mc user).getD false = false then
          ({ st1 with ow := fun c v => if c = mc ∧ v = user then some true else st1.ow c v },
           false)
        else (st1, false)
      | none => (st1, true)
    else (st1, false)

/-- `MapTesting.handle_removing_perms`, fired on every raw reaction remove with
no filter on the acting user: on a `✅` reaction in the info channel, remove
the `testing` role when the user holds it; on a `✅` reaction in the submit
channel, clear the permission overwrite when the channel exists and
`overwrites_for(user).read_messages` is truthy. -/
def handle_removing_perms (r : Registry) (st : PermState) (emoji : Char)
    (chan : EvChan) (user : UserId) (msgFilename : List Char) : PermState :=
  if emoji ≠ '✅' then st
  else
    let st1 :=
      if chan = EvChan.tinfo ∧ st.roles user = true then
        { st with roles := fun v => if v = user then false else st.roles v }
      else st
    if chan = EvChan.submit then
      match get_map_channel r (stem4 msgFilename) with
      | some mc =>
        if (st1.ow mc user).getD false = true then
          { st1 with ow := fun c v => if c = mc ∧ v = user then none else st1.ow c v }
        else st1
      | none => st1
    else st1

/-! ### Upload protocol and submission-channel dispatch -/

/-- Form-field selection of `MapTesting.upload_file`: the field name the file
name is posted under, or `none` for an invalid asset type. -/
def upload_field_name (asset_type : String) : Option String :=
  if asset_type = "map" then some "map_name"
  else if asset_type = "log" then some "channel_name"
  else if asset_type = "attachment" ∨ asset_type = "avatar" ∨ asset_type = "emoji" then
    some "asset_name"
  else none

/-- `MapTesting.upload_file`: for a valid asset type the function posts the
file and returns the status code the upload collaborator responded with
(`collabStatus`); for an invalid asset type it returns `-1` without posting.
A non-200 status is only logged, never raised. -/
def upload_file (asset_type : String) (collabStatus : Int) : Int :=
  match upload_field_name asset_type with
  | none => -1
  | some _ => collabStatus

/-- The reaction added to the triggering message after an upload attempt, in
both the approval handler (`on_raw_reaction_add`) and the re-upload branch of
`on_message`: `🆙` when the returned status is 200, `❌` otherwise. The
handlers continue unconditionally after adding it; no retry is issued. -/
def upload_reaction (resp : Int) : Char :=
  if resp = 200 then '🆙' else '❌'

/-- Python `str.endswith` on the `.map` suffix. -/
def endsWithMap (f : List Char) : Bool :=
  List.isSuffixOf ['.', 'm', 'a', 'p'] f

/-- `has_map_file`: the message has attachments and the first attachment
filename ends in `.map`. -/
def has_map_file (attachments : List (List Char)) : Bool :=
  match attachments with
  | [] => false
  | f :: _ => endsWithMap f

/-- The observable actions of the submit-channel branch of
`MapTesting.on_message`: a direct message to the author carrying a validation
failure reason, a reaction added to the message, or deletion of the message. -/
inductive SubmitAction
  | dmAuthor (e : ValidationError)
  | react (c : Char)
  | deleteMessage
deriving DecidableEq

/-- Submit-channel branch of `MapTesting.on_message`: for a map-file message,
validate it, direct-message the author the failure reason whenever validation
failed, then react `❗` on failure and `☑` on success; a non-map message by a
non-staff author is deleted. The handler keeps no record of earlier direct
messages. -/
def on_message_submit (r : Registry) (content : List Char)
    (attachments : List (List Char)) (authorIsStaff : Bool) : List SubmitAction :=
  if has_map_file attachments then
    let error := validate_map_submission r content (attachments.headD [])
    (match error with
     | some e => [SubmitAction.dmAuthor e]
     | none => []) ++
      [SubmitAction.react (if error.isSome then '❗' else '☑')]
  else if authorIsStaff = false then [SubmitAction.deleteMessage]
  else []

/-- Number of direct messages among the actions of one handled message. -/
def dm_count (acts : List SubmitAction) : Nat :=
  (acts.filter fun a =>
    match a with
    | SubmitAction.dmAuthor _ => true
    | _ => false).length

/-- Total direct messages sent for a sequence of submit-channel messages by one
non-staff author, each message given as creation time, caption text and
attachment filenames; the handler is invoked per message and consults no
cross-message state, so the times are never read. -/
def submit_dms (r : Registry) (msgs : List (Nat × List Char × List (List Char))) : Nat :=
  (msgs.map fun m => dm_count (on_message_submit r m.2.1 m.2.2 false)).sum

/-! ### Server status (`cogs/teeworlds.py`) -/

/-- `ServerInfo.PPS_THRESHOLD`. -/
def PPS_THRESHOLD : Int := 3000

/-- `ServerInfo.PPS_RATIO_MIN`. -/
def PPS_RATIO_MIN : Int := 500

/-- `ServerInfo.PPS_RATIO_THRESHOLD` (the float `2.0`, modelled exactly as the
rational 2). -/
def PPS_RATIO_THRESHOLD : ℚ := 2

/-- `ServerInfo.is_under_attack`:
`rx > PPS_THRESHOLD or rx > PPS_RATIO_MIN and rx / tx > PPS_RATIO_THRESHOLD`,
with Python short-circuit evaluation made explicit: the division is reached
only when the first disjunct is false and `rx > PPS_RATIO_MIN` holds; `none`
models the `ZeroDivisionError` raised when the division is reached with
`tx = 0`. -/
def is_under_attack (rx tx : Int) : Option Bool :=
  if PPS_THRESHOLD < rx then some true
  else if PPS_RATIO_MIN < rx then
    if tx = 0 then none
    else some (decide (PPS_RATIO_THRESHOLD < (rx : ℚ) / (tx : ℚ)))
  else some false

/-! ### Helper lemmas -/

/-- Decoding a valid small codepoint round-trips through `Char.ofNat`. -/
theorem char_toNat_ofNat {m : Nat} (h : m < 55296) : (Char.ofNat m).toNat = m := by
  have hv : m.isValidChar := Or.inl h
  rw [Char.ofNat, dif_pos hv]
  rfl

/-- Characters outside the upper-case ASCII range are fixed by `Char.toLower`. -/
theorem toLower_fixed (c : Char) (h : ¬ (65 ≤ c.toNat ∧ c.toNat ≤ 90)) :
    c.toLower = c := by
  unfold Char.toLower
  exact if_neg h

/-- `Char.toLower` is idempotent. -/
theorem toLower_toLower (c : Char) : c.toLower.toLower = c.toLower := by
  by_cases h : 65 ≤ c.toNat ∧ c.toNat ≤ 90
  · have h1 : c.toLower = Char.ofNat (c.toNat + 32) := by
      unfold Char.toLower
      exact if_pos h
    have h2 : c.toLower.toNat = c.toNat + 32 := by
      rw [h1, char_toNat_ofNat (by omega)]
    apply toLower_fixed
    rw [h2]
    omega
  · rw [toLower_fixed c h]
    exact toLower_fixed c h

/-- Lower-casing a character list is idempotent. -/
theorem map_toLower_idem (l : List Char) :
    (l.map Char.toLower).map Char.toLower = l.map Char.toLower := by
  induction l with
  | nil => rfl
  | cons c t ih => simp [toLower_toLower, ih]

/-! ### Claim theorems -/

/-- C9: channel lookup is case-insensitive in its argument — `get_map_channel`
lower-cases the name before comparing it against the channel names of the two
categories (one leading character stripped in the Testing group, two in the
Evaluated group), so looking up a name and looking up its lower-cased form
return the same channel. -/
theorem get_map_channel_case_insensitive (r : Registry) (n : List Char) :
    get_map_channel r n = get_map_channel r (n.map Char.toLower) := by
  have hc : Char.toLower ∘ Char.toLower = Char.toLower := funext toLower_toLower
  simp [get_map_channel, hc]

/-- C1: `validate_map_submission` returns the reason of the first failing rule
of its fixed chain — caption parse, canonical name versus filename stem,
server-type key, duplicate channel — and `none` when all rules pass; in
particular a submission whose caption fails to parse gets the malformed-details
reason regardless of the registry contents. -/
theorem validate_rule_order (r : Registry) (content fn : List Char) :
    (format_map_details content = none →
      validate_map_submission r content fn = some ValidationError.malformedDetails)
    ∧ (∀ nm mp sv, format_map_details content = some (nm, mp, sv) →
        sanitize nm ≠ stem4 fn →
        validate_map_submission r content fn = some ValidationError.nameFilenameMismatch)
    ∧ (∀ nm mp sv, format_map_details content = some (nm, mp, sv) →
        sanitize nm = stem4 fn → isServerType sv = false →
        validate_map_submission r content fn = some ValidationError.invalidServerType)
    ∧ (∀ nm mp sv c, format_map_details content = some (nm, mp, sv) →
        sanitize nm = stem4 fn → isServerType sv = true →
        get_map_channel r (stem4 fn) = some c →
        validate_map_submission r content fn = some (ValidationError.duplicateSubmission c))
    ∧ (∀ nm mp sv, format_map_details content = some (nm, mp, sv) →
        sanitize nm = stem4 fn → isServerType sv = true →
        get_map_channel r (stem4 fn) = none →
        validate_map_submission r content fn = none) := by
  refine ⟨?_, ?_, ?_, ?_, ?_⟩
  · intro h
    simp [validate_map_submission, h]
  · intro nm mp sv h hmis
    simp [validate_map_submission, h, hmis]
  · intro nm mp sv h heq hsv
    simp [validate_map_submission, h, heq, hsv]
  · intro nm mp sv c h heq hsv hdup
    simp [validate_map_submission, h, heq, hsv, hdup]
  · intro nm mp sv h heq hsv hnone
    simp [validate_map_submission, h, heq, hsv, hnone]

/-- C1 witness: a caption that fails to parse is reported as malformed details
even though the registry holds a duplicate channel for the filename stem. -/
theorem validate_rule_order_witness :
    get_map_channel ⟨[['💪', 'x']], []⟩ (stem4 ['x', '.', 'm', 'a', 'p']) = some ['💪', 'x'] ∧
    validate_map_submission ⟨[['💪', 'x']], []⟩ ['h', 'i'] ['x', '.', 'm', 'a', 'p'] =
      some ValidationError.malformedDetails :=
  ⟨by decide, (validate_rule_order ⟨[['💪', 'x']], []⟩ ['h', 'i'] ['x', '.', 'm', 'a', 'p']).1 (by decide)⟩

/-- C2: from a channel in state Ready or Declined whose remaining name does not
itself start with a state glyph, the staff-issued `reset` command strips the
state glyph from the channel name, moves the channel back to the Testing
group, and the resulting channel derives state Testing. -/
theorem reset_returns_to_testing (c : Channel)
    (hstate : deriveState c = LifecycleState.ready ∨ deriveState c = LifecycleState.declined)
    (hname : ∀ g, c.name.tail.head? = some g → g ∉ state_glyphs) :
    deriveState (reset_cmd true c) = LifecycleState.testing
    ∧ (reset_cmd true c).cat = Cat.mt
    ∧ (reset_cmd true c).name = c.name.tail := by
  match hc : c.name with
  | [] =>
    rw [deriveState, hc] at hstate
    rcases hstate with h | h <;> exact absurd h (by simp)
  | g :: t =>
    have hg : g = '📆' ∨ g = '❌' := by
      rw [deriveState, hc] at hstate
      rcases hstate with h | h
      · by_cases h1 : g = '📆'
        · exact Or.inl h1
        · exfalso
          revert h
          split <;> simp_all
      · by_cases h1 : g = '❌'
        · exact Or.inr h1
        · exfalso
          revert h
          split <;> simp_all
    have hmem : g ∈ state_glyphs := by
      rcases hg with h | h <;> simp [state_glyphs, h]
    have hres : reset_cmd true c = ⟨t, Cat.mt⟩ := by
      simp [reset_cmd, reset_map_channel, hc, hmem]
    have hsafe : ∀ g', t.head? = some g' → g' ∉ state_glyphs := by
      intro g' hgt
      apply hname g'
      rw [hc]
      exact hgt
    refine ⟨?_, by simp [hres], by simp [hres, hc]⟩
    rw [hres]
    unfold deriveState
    split <;> simp_all [state_glyphs]

/-- C2 witness: resetting the Ready channel `📆💪a` yields the Testing-group
channel `💪a` in state Testing. -/
theorem reset_returns_to_testing_witness :
    deriveState (reset_cmd true ⟨['📆', '💪', 'a'], Cat.em⟩) = LifecycleState.testing
    ∧ (reset_cmd true ⟨['📆', '💪', 'a'], Cat.em⟩).cat = Cat.mt
    ∧ (reset_cmd true ⟨['📆', '💪', 'a'], Cat.em⟩).name = ['💪', 'a'] :=
  reset_returns_to_testing ⟨['📆', '💪', 'a'], Cat.em⟩ (by decide) (by decide)

/-- C3 counterexample: `decline` issued in the Released channel `🔥💪a` is not
a no-op — the channel is renamed to `❌💪a` (an edit is issued), so its name
does not stay unchanged and it leaves the Released state. -/
theorem decline_on_released_changes :
    decline_cmd true ⟨['🔥', '💪', 'a'], Cat.em⟩ =
      some (⟨['❌', '💪', 'a'], Cat.em⟩, true)
    ∧ (['❌', '💪', 'a'] : List Char) ≠ ['🔥', '💪', 'a']
    ∧ deriveState ⟨['❌', '💪', 'a'], Cat.em⟩ ≠ LifecycleState.released := by
  refine ⟨by decide, by decide, by decide⟩

/-- C3 amended: Released is not terminal for the `decline` command —
`move_map_channel` skips a transition only when the current leading glyph
equals the target glyph, so a staff `decline` in a channel whose name carries
the Released glyph replaces that glyph with the Declined glyph, issues an
edit, keeps the channel in the Evaluated group, and the channel derives state
Declined. -/
theorem decline_on_released_declines (t : List Char) :
    decline_cmd true ⟨'🔥' :: t, Cat.em⟩ = some (⟨'❌' :: t, Cat.em⟩, true)
    ∧ deriveState ⟨'❌' :: t, Cat.em⟩ = LifecycleState.declined := by
  refine ⟨?_, rfl⟩
  simp [decline_cmd, move_map_channel, state_glyphs]

/-- C8: a lifecycle transition whose target glyph already equals the leading
state glyph of the channel name is detected and skipped — `move_map_channel`
returns the channel unchanged and issues no edit, whatever the category. -/
theorem move_same_state_skipped (t : List Char) (g : Char) (cat : Cat)
    (h : g ∈ state_glyphs) :
    move_map_channel ⟨g :: t, cat⟩ g = some (⟨g :: t, cat⟩, false) := by
  simp [move_map_channel, h]

/-- C8 witness: issuing `ready` (target glyph `📆`) on the already-Ready
channel `📆💪a` changes nothing and issues no edit. -/
theorem move_same_state_skipped_witness :
    move_map_channel ⟨['📆', '💪', 'a'], Cat.em⟩ '📆' =
      some (⟨['📆', '💪', 'a'], Cat.em⟩, false) :=
  move_same_state_skipped ['💪', 'a'] '📆' Cat.em (by decide)

/-- C4: the permission synchronizer is idempotent on a map channel — a `✅`
grant event for a user whose overwrite already reads true changes nothing, a
`✅` revoke event for a user with no read-granting overwrite changes nothing,
and applying the same grant or revoke event twice equals applying it once; no
branch produces an error. -/
theorem perm_sync_idempotent (r : Registry) (st : PermState) (u : UserId)
    (fn : List Char) (mc : List Char)
    (hmc : get_map_channel r (stem4 fn) = some mc) :
    (st.ow mc u = some true →
      handle_giving_perms r st '✅' EvChan.submit u fn = (st, false))
    ∧ ((st.ow mc u).getD false = false →
      handle_removing_perms r st '✅' EvChan.submit u fn = st)
    ∧ handle_giving_perms r (handle_giving_perms r st '✅' EvChan.submit u fn).1
        '✅' EvChan.submit u fn
      = handle_giving_perms r st '✅' EvChan.submit u fn
    ∧ handle_removing_perms r (handle_removing_perms r st '✅' EvChan.submit u fn)
        '✅' EvChan.submit u fn
      = handle_removing_perms r st '✅' EvChan.submit u fn := by
  have hgive : ∀ s : PermState,
      handle_giving_perms r s '✅' EvChan.submit u fn =
        if (s.ow mc u).getD false = false then
          ({ s with ow := fun c v => if c = mc ∧ v = u then some true else s.ow c v },
           false)
        else (s, false) := by
    intro s
    simp [handle_giving_perms, hmc]
  have hrem : ∀ s : PermState,
      handle_removing_perms r s '✅' EvChan.submit u fn =
        if (s.ow mc u).getD false = true then
          { s with ow := fun c v => if c = mc ∧ v = u then none else s.ow c v }
        else s := by
    intro s
    simp [handle_removing_perms, hmc]
  refine ⟨?_, ?_, ?_, ?_⟩
  · intro h
    rw [hgive]
    simp [h]
  · intro h
    rw [hrem]
    simp [h]
  · rw [hgive st]
    by_cases h : (st.ow mc u).getD false = false
    · simp only [h, if_true]
      rw [hgive]
      simp
    · simp only [h, if_false]
      rw [hgive]
      simp [h]
  · rw [hrem st]
    by_cases h : (st.ow mc u).getD false = true
    · simp only [h, if_true]
      rw [hrem]
      simp
    · simp only [h, if_false]
      rw [hrem]
      simp [h]

/-- C4 witness: re-granting read access to user 0, who already holds a
read-granting overwrite on the map channel `💪x`, changes neither the roles
nor the overwrites and removes no reaction. -/
theorem perm_sync_idempotent_witness :
    handle_giving_perms ⟨[['💪', 'x']], []⟩
      ⟨fun _ => false, fun c v => if c = ['💪', 'x'] ∧ v = 0 then some true else none⟩
      '✅' EvChan.submit 0 ['x', '.', 'm', 'a', 'p']
    = (⟨fun _ => false, fun c v => if c = ['💪', 'x'] ∧ v = 0 then some true else none⟩,
       false) :=
  (perm_sync_idempotent ⟨[['💪', 'x']], []⟩
    ⟨fun _ => false, fun c v => if c = ['💪', 'x'] ∧ v = 0 then some true else none⟩
    0 ['x', '.', 'm', 'a', 'p'] ['💪', 'x'] (by decide)).1 (by decide)

/-- C5 counterexample: the permission-synchronization triggers do not ignore
the system account. Taking the bot to be user 0, a `✅` reaction add by user 0
on the info channel, starting from a state where user 0 lacks the testing
role, grants user 0 the role — a role change, where the claim demands none. -/
theorem bot_accept_reaction_not_ignored :
    (PermState.roles ⟨fun _ => false, fun _ _ => none⟩ 0 = false)
    ∧ (handle_giving_perms ⟨[], []⟩ ⟨fun _ => false, fun _ _ => none⟩
        '✅' EvChan.tinfo 0 []).1.roles 0 = true := by
  exact ⟨rfl, rfl⟩

/-- C5 amended: neither `✅` handler filters on the acting user — there is no
comparison against the system account, so an event whose actor is the system
account is processed exactly like any other actor. On the info channel, a `✅`
add by any user lacking the testing role grants that user the role, and a `✅`
remove by any user holding it revokes it. -/
theorem accept_triggers_no_actor_filter (r : Registry) (st : PermState)
    (u : UserId) (fn : List Char) :
    (st.roles u = false →
      (handle_giving_perms r st '✅' EvChan.tinfo u fn).1.roles u = true)
    ∧ (st.roles u = true →
      (handle_removing_perms r st '✅' EvChan.tinfo u fn).roles u = false) := by
  constructor
  · intro h
    simp [handle_giving_perms, h]
  · intro h
    simp [handle_removing_perms, h]

/-- C5 amended witness: user 7 reacting `✅` on the info channel without the
testing role receives it, and with the role loses it on reaction removal. -/
theorem accept_triggers_no_actor_filter_witness :
    (handle_giving_perms ⟨[], []⟩ ⟨fun _ => false, fun _ _ => none⟩
      '✅' EvChan.tinfo 7 []).1.roles 7 = true
    ∧ (handle_removing_perms ⟨[], []⟩ ⟨fun _ => true, fun _ _ => none⟩
      '✅' EvChan.tinfo 7 []).roles 7 = false :=
  ⟨(accept_triggers_no_actor_filter ⟨[], []⟩ ⟨fun _ => false, fun _ _ => none⟩ 7 []).1 rfl,
   (accept_triggers_no_actor_filter ⟨[], []⟩ ⟨fun _ => true, fun _ _ => none⟩ 7 []).2 rfl⟩

/-- C6: for a map upload attempt, the triggering message is reacted to with
the success marker `🆙` exactly when the upload collaborator returns status
code 200, and with the failure marker `❌` exactly otherwise; the status is
returned as-is (no retry is encoded), so a non-200 status only changes the
marker. -/
theorem upload_marker_iff_200 (s : Int) :
    (upload_reaction (upload_file "map" s) = '🆙' ↔ s = 200)
    ∧ (upload_reaction (upload_file "map" s) = '❌' ↔ s ≠ 200) := by
  have h : upload_file "map" s = s := rfl
  rw [h]
  by_cases hs : s = 200 <;>
    simp [upload_reaction, hs, (by decide : ('🆙' : Char) ≠ '❌'),
      (by decide : ('❌' : Char) ≠ '🆙')]

/-- C7 counterexample: two identical failing submissions by the same non-staff
author, both at time 0 (hence within 24 hours of each other), produce two
direct messages, not at most one — `on_message` direct-messages the author on
every validation failure and keeps no record of earlier errors. -/
theorem identical_failures_dm_twice :
    validate_map_submission ⟨[], []⟩ ['h', 'i'] ['x', '.', 'm', 'a', 'p'] =
      some ValidationError.malformedDetails
    ∧ submit_dms ⟨[], []⟩
        [(0, ['h', 'i'], [['x', '.', 'm', 'a', 'p']]),
         (0, ['h', 'i'], [['x', '.', 'm', 'a', 'p']])] = 2 := by
  exact ⟨by decide, by decide⟩

/-- C7 amended: every failing map submission direct-messages the author with
the failure reason — there is no suppression window, so identical failing
submissions by the same author each produce a direct message. -/
theorem failing_submission_always_dms (r : Registry) (content : List Char)
    (att : List (List Char)) (e : ValidationError)
    (hmap : has_map_file att = true)
    (hval : validate_map_submission r content (att.headD []) = some e) :
    on_message_submit r content att false =
      [SubmitAction.dmAuthor e, SubmitAction.react '❗'] := by
  cases att with
  | nil => simp [has_map_file] at hmap
  | cons f rest =>
    simp only [List.headD_cons] at hval
    simp [on_message_submit, hmap, hval]

/-- C7 amended witness: a malformed submission is answered with a direct
message carrying the reason and an error reaction. -/
theorem failing_submission_always_dms_witness :
    on_message_submit ⟨[], []⟩ ['h', 'i'] [['x', '.', 'm', 'a', 'p']] false =
      [SubmitAction.dmAuthor ValidationError.malformedDetails, SubmitAction.react '❗'] :=
  failing_submission_always_dms ⟨[], []⟩ ['h', 'i'] [['x', '.', 'm', 'a', 'p']]
    ValidationError.malformedDetails (by decide) (by decide)

/-- C10: whenever the received packet count is at most the ratio minimum of
500 (and at most the 3000 threshold), `is_under_attack` returns false without
reaching the packet-ratio division — in particular a transmitted count of
zero raises no division error under that precondition. -/
theorem low_traffic_no_division (rx tx : Int) (h1 : rx ≤ 500) (_h2 : rx ≤ 3000) :
    is_under_attack rx tx = some false := by
  unfold is_under_attack PPS_THRESHOLD PPS_RATIO_MIN
  rw [if_neg (by omega), if_neg (by omega)]

/-- C10 witness: 400 received packets and zero transmitted packets yield a
false verdict and no division error. -/
theorem low_traffic_no_division_witness :
    is_under_attack 400 0 = some false :=
  low_traffic_no_division 400 0 (by decide) (by decide)
